import Mathlib

/-!
Verification of the memory-augmented chat orchestration layer.

The repository wires an external chat-completion client and an external
memory/vector store together (`llm.py`, `memory.py`) behind an interactive
shell (`main.py`).  The embedding below models the two external
collaborators as explicit environments (`StoreEnv`, `CompletionEnv`) and
each operation of the layer as a pure function returning its result
together with the ordered trace of observable events it performs
(store searches, store writes, store purges, completion calls, fragments
yielded to the caller).  Python floats (temperatures, relevance scores)
are modelled as rationals; free-form metadata dictionaries are modelled
as association lists of strings.
-/

/-- A chat message: role plus text content (`Message` in `llm.py`,
and the plain dicts built in `chat_with_memories`). -/
structure Msg where
  role : String
  content : String
deriving DecidableEq, Repr

/-- A raw result row returned by the external store
(`memory.search(...)["results"][i]` in `memory.py`): textual content,
optional metadata mapping, optional timestamp, optional relevance score.
Absent keys are modelled as `none`. -/
structure RawMemory where
  memory : String
  metadata : Option (List (String × String)) := none
  timestamp : Option String := none
  score : Option ℚ := none
deriving DecidableEq, Repr

/-- Observable events performed by the layer, in program order. -/
inductive Event where
  /-- `self.memory.search(query, user_id=..., limit=...)` -/
  | search (query userId : String) (limit : Int)
  /-- `self.memory.add(messages, user_id=...)` -/
  | add (messages : List Msg) (userId : String)
  /-- `self.memory.clear(user_id=...)` -/
  | clear (userId : String)
  /-- `self.client.chat.completions.create(...)` -/
  | completionCreate (stream : Bool) (messages : List Msg)
  /-- a text fragment yielded to the caller of a generator -/
  | yieldFrag (s : String)
deriving DecidableEq, Repr

def Event.isAdd : Event → Bool
  | .add _ _ => true
  | _ => false

def Event.isClear : Event → Bool
  | .clear _ => true
  | _ => false

def Event.isStoreSearch : Event → Bool
  | .search _ _ _ => true
  | _ => false

/-- The fragment contents yielded to the caller, in order. -/
def yieldContents (tr : List Event) : List String :=
  tr.filterMap fun e =>
    match e with
    | .yieldFrag s => some s
    | _ => none

/-- Behaviour of the external memory store: what a semantic search
returns, and whether a purge raises (`Except.error`) or succeeds. -/
structure StoreEnv where
  searchResults : String → String → Int → List RawMemory
  clearResult : String → Except String Unit

/-- Behaviour of the external completion client: the delta contents of
the chunks of a streaming call (a `none`/empty entry models a chunk
whose `delta.content` is falsy), and the message content of a blocking
call. -/
structure CompletionEnv where
  streamChunks : List Msg → List (Option String)
  completionContent : List Msg → String

/-! ## Configuration (`LLMConfig` in `llm.py`, provider lookup in `LLM.__init__`) -/

/-- The default system prompt of `LLMConfig`. -/
def defaultSystemPrompt : String :=
  "You are a helpful AI assistant. Use the provided memories to give context-aware responses."

/-- A validated provider profile (`LLMConfig` in `llm.py`): `api_key`,
`api_base` and `model` are required; the rest default. -/
structure LLMConfig where
  api_key : String
  api_base : String
  model : String
  temperature : ℚ := 7/10
  max_tokens : Int := 2000
  top_p : ℚ := 1
  system_prompt : String := defaultSystemPrompt
deriving DecidableEq, Repr

/-- One raw provider entry of the configuration file: every field may be
present or absent. -/
structure ProviderEntry where
  api_key : Option String := none
  api_base : Option String := none
  model : Option String := none
  temperature : Option ℚ := none
  max_tokens : Option Int := none
  top_p : Option ℚ := none
  system_prompt : Option String := none
deriving DecidableEq, Repr

/-- Pydantic validation of `LLMConfig(**provider_config)`: the three
fields without declared defaults must be present, the others fall back
to their declared defaults. -/
def LLMConfig.validate (e : ProviderEntry) : Except String LLMConfig :=
  match e.api_key, e.api_base, e.model with
  | some k, some b, some m =>
      .ok { api_key := k, api_base := b, model := m,
            temperature := e.temperature.getD (7/10),
            max_tokens := e.max_tokens.getD 2000,
            top_p := e.top_p.getD 1,
            system_prompt := e.system_prompt.getD defaultSystemPrompt }
  | _, _, _ => .error "validation error: field required"

/-- The parsed configuration file, reduced to the part the claims touch:
the `providers` mapping (a YAML mapping, modelled as an association
list). -/
structure ConfigFile where
  providers : List (String × ProviderEntry)
deriving Repr

/-- Provider resolution of `LLM.__init__` (llm.py lines 62-66): a key
absent from `providers` raises `ValueError`; otherwise the entry is
validated into an `LLMConfig`. -/
def LLM.loadProviderConfig (cfg : ConfigFile) (provider : String) : Except String LLMConfig :=
  match cfg.providers.lookup provider with
  | none => .error ("Provider \x27" ++ provider ++ "\x27 not found in configuration")
  | some entry => LLMConfig.validate entry

/-! ## Memory manager (`memory.py`) -/

/-- The two result-count limits of `MemoryConfig` in `memory.py` (the
`llm`/`embedder`/`vector_store` sub-configurations are forwarded
verbatim to the external store at construction and play no part in the
operations below, so they are not modelled). -/
structure MemoryConfig where
  search_limit : Int := 5
  context_limit : Int := 3
deriving DecidableEq, Repr

/-- A `MemoryManager` instance: its validated configuration (the wrapped
`Mem0Memory` client itself is the external collaborator, `StoreEnv`). -/
structure MemoryManager where
  config : MemoryConfig
deriving DecidableEq, Repr

/-- The stable record shape returned by `MemoryManager.search_memories`:
the built dict always carries all four keys. -/
structure MemRecord where
  content : String
  metadata : List (String × String)
  created_at : Option String
  relevance_score : ℚ
deriving DecidableEq, Repr

/-- One entry of the `recent_memories` list built by
`MemoryManager.get_user_profile` (no relevance score here). -/
structure ProfileMemory where
  content : String
  metadata : List (String × String)
  created_at : Option String
deriving DecidableEq, Repr

/-- The profile dict returned by `MemoryManager.get_user_profile`. -/
structure UserProfile where
  recent_memories : List ProfileMemory
deriving DecidableEq, Repr

/-- Python `repr` of a string-to-string dict, used only inside the text
rendered by `get_context` (e.g. `\x7b\x7d` for the empty dict). -/
def reprDict (d : List (String × String)) : String :=
  match d with
  | [] => "\x7b\x7d"
  | _ => "\x7b" ++
      String.intercalate ", " (d.map fun kv => "\x27" ++ kv.1 ++ "\x27: \x27" ++ kv.2 ++ "\x27") ++
      "\x7d"

/-- Python `f"\x7bx:.2f\x7d"` on a rational: fixed-point rendering with
two fractional digits.  The rounded hundredths are
`⌊q * 100 + 1/2⌋ = (200 * q.num + q.den).fdiv (2 * q.den)`, written with
integer floor division so the definition evaluates by `decide`. -/
def format2f (q : ℚ) : String :=
  let n : Int := (200 * q.num + q.den).fdiv (2 * q.den)
  let a : Nat := n.natAbs
  let digits := toString (a / 100) ++ "." ++ (if a % 100 < 10 then "0" else "") ++ toString (a % 100)
  if n < 0 then "-" ++ digits else digits

/-- `MemoryManager.search_memories` (memory.py lines 134-155): one
semantic search with `limit = min(max_results, self.config.search_limit)`,
results reshaped into the stable record schema (`relevance_score`
defaults to 0.0 when the store gave no score). -/
def MemoryManager.search_memories (mm : MemoryManager) (env : StoreEnv)
    (userId query : String) (maxResults : Int := 5) : List MemRecord × List Event :=
  let lim := min maxResults mm.config.search_limit
  let results := env.searchResults query userId lim
  (results.map fun m => ⟨m.memory, m.metadata.getD [], m.timestamp, m.score.getD 0⟩,
   [Event.search query userId lim])

/-- `MemoryManager.get_user_profile` (memory.py lines 94-111): fixed
"summary" query limited to `search_limit`, no relevance score in the
output shape. -/
def MemoryManager.get_user_profile (mm : MemoryManager) (env : StoreEnv)
    (userId : String) : UserProfile × List Event :=
  let memories := env.searchResults "summary" userId mm.config.search_limit
  (⟨memories.map fun m => ⟨m.memory, m.metadata.getD [], m.timestamp⟩⟩,
   [Event.search "summary" userId mm.config.search_limit])

/-- `MemoryManager.get_context` (memory.py lines 113-132): fixed
"summary" query limited to `context_limit`, rendered as a bulleted
block.  `max_token_size` and `prefer_topics` are accepted but unused,
exactly as in the source. -/
def MemoryManager.get_context (mm : MemoryManager) (env : StoreEnv) (userId : String)
    (maxTokenSize : Int := 500) (preferTopics : Option (List String) := none) :
    String × List Event :=
  let memories := env.searchResults "summary" userId mm.config.context_limit
  let memoryStr := String.intercalate "\n"
    (memories.map fun m => "- " ++ m.memory ++ " (Metadata: " ++ reprDict (m.metadata.getD []) ++ ")")
  ("Recent context:\n" ++ memoryStr,
   [Event.search "summary" userId mm.config.context_limit])

/-- `MemoryManager.delete_user` (memory.py lines 157-164): the purge is
attempted inside a bare `try`/`except`; any raised error is reduced to
`False`, success to `True`.  The `Bool` return type records that the
operation itself never raises. -/
def MemoryManager.delete_user (mm : MemoryManager) (env : StoreEnv)
    (userId : String) : Bool × List Event :=
  match env.clearResult userId with
  | .ok _ => (true, [Event.clear userId])
  | .error _ => (false, [Event.clear userId])

/-! ## Chat orchestrator (`LLM` in `llm.py`) -/

/-- An `LLM` instance after construction: validated provider profile,
optional attached memory manager, resolved user id. -/
structure LLM where
  config : LLMConfig
  memory_manager : Option MemoryManager
  user_id : String

/-- The bullet line rendered for one retrieved memory inside
`chat_with_memories` (llm.py line 110): content plus two-decimal
relevance, `entry.get("score", 0.0)` substituting 0.0 for a missing
score. -/
def memoryLine (entry : RawMemory) : String :=
  "- " ++ entry.memory ++ " (Relevance: " ++ format2f (entry.score.getD 0) ++ ")"

/-- Python truthiness filter of the streaming loop (llm.py lines
132-136): a chunk is collected and yielded only when its delta content
is neither `None` nor the empty string. -/
def truthyChunks (chunks : List (Option String)) : List String :=
  chunks.filterMap fun c =>
    match c with
    | some s => if s = "" then none else some s
    | none => none

/-- `LLM.chat_with_memories` (llm.py lines 74-157) as the trace of
events its generator body performs.  `Except.error` models the
`ValueError` raised when no memory manager is attached (before any
store or completion call).  The resolution `user_id = user_id or
self.user_id` falls back on the instance id when the argument is absent
or falsy (empty). -/
def LLM.chat_with_memories (llm : LLM) (env : StoreEnv) (client : CompletionEnv)
    (message : String) (userId : Option String := none)
    (storeMemory : Bool := true) (streamFlag : Bool := false) :
    Except String (List Event) :=
  match llm.memory_manager with
  | none => .error "Memory manager not initialized"
  | some mm =>
    let uid := match userId with
      | some u => if u = "" then llm.user_id else u
      | none => llm.user_id
    let relevantMemories := env.searchResults message uid mm.config.context_limit
    let memoriesStr := String.intercalate "\n" (relevantMemories.map memoryLine)
    let systemPrompt := llm.config.system_prompt ++ "\n\nRelevant Memories:\n" ++ memoriesStr
    let messages := [Msg.mk "system" systemPrompt, Msg.mk "user" message]
    let searchEv := Event.search message uid mm.config.context_limit
    if streamFlag then
      let frags := truthyChunks (client.streamChunks messages)
      let base := searchEv :: Event.completionCreate true messages :: frags.map Event.yieldFrag
      if storeMemory then
        .ok (base ++ [Event.add (messages ++ [Msg.mk "assistant" (String.join frags)]) uid])
      else
        .ok base
    else
      let assistantResponse := client.completionContent messages
      if storeMemory then
        .ok [searchEv, Event.completionCreate false messages,
             Event.add (messages ++ [Msg.mk "assistant" assistantResponse]) uid,
             Event.yieldFrag assistantResponse]
      else
        .ok [searchEv, Event.completionCreate false messages,
             Event.yieldFrag assistantResponse]

/-- `LLM.get_user_profile` (llm.py lines 195-199): guard, then delegate
with the instance's user id. -/
def LLM.get_user_profile (llm : LLM) (env : StoreEnv) :
    Except String (UserProfile × List Event) :=
  match llm.memory_manager with
  | none => .error "Memory manager not initialized"
  | some mm => .ok (mm.get_user_profile env llm.user_id)

/-- `LLM.search_memories` (llm.py lines 201-205): guard, then delegate
with the instance's user id. -/
def LLM.search_memories (llm : LLM) (env : StoreEnv) (query : String)
    (maxResults : Int := 5) : Except String (List MemRecord × List Event) :=
  match llm.memory_manager with
  | none => .error "Memory manager not initialized"
  | some mm => .ok (mm.search_memories env llm.user_id query maxResults)

/-! ## Interactive shell (`main.py`)

Python strings are modelled as `List Char` here so that `strip` and
`split(" ", 1)` can be reasoned about character by character. -/

/-- The whitespace characters stripped by Python `str.strip()` (the
ASCII ones; the shell commands are ASCII). -/
def pyIsSpace (c : Char) : Bool :=
  c = ' ' ∨ c = '\t' ∨ c = '\n' ∨ c = '\r' ∨ c = '\x0b' ∨ c = '\x0c'

/-- Python `s.strip()`: drop leading and trailing whitespace. -/
def pyStrip (l : List Char) : List Char :=
  (((l.dropWhile pyIsSpace).reverse).dropWhile pyIsSpace).reverse

/-- Python `s.split(" ", 1)`: the part before the first space, and, when
a space exists, the remainder after it. -/
def pySplitOnce : List Char → List Char × Option (List Char)
  | [] => ([], none)
  | c :: rest =>
      if c = ' ' then ([], some rest)
      else (c :: (pySplitOnce rest).1, (pySplitOnce rest).2)

/-- What one shell input line dispatches to (`main` in `main.py`,
lines 61-99): strip, a leading `/` selects a command, the lowercased
first token is compared against the known commands in order
(`search` additionally requires `len(command) > 1`, i.e. a query part
after the first space), anything unknown prints the help text; a
non-command line is forwarded to `chat_with_memories`. -/
inductive ShellAction where
  | done
  | search (q : List Char)
  | profile
  | clear
  | help
  | chat (msg : List Char)
deriving DecidableEq, Repr

/-- Command selection of the shell (`main.py` lines 65-93) on the
result of `user_input[1:].split(" ", 1)`: the lowercased first token is
compared in order against `exit`, `search` (which additionally requires
a query part, `len(command) > 1`), `profile` and `clear`; anything else
is the help branch. -/
def dispatchCommand (c : List Char × Option (List Char)) : ShellAction :=
  if c.1.map Char.toLower = String.toList "exit" then ShellAction.done
  else if c.1.map Char.toLower = String.toList "search" ∧ c.2.isSome then
    ShellAction.search (c.2.getD [])
  else if c.1.map Char.toLower = String.toList "profile" then ShellAction.profile
  else if c.1.map Char.toLower = String.toList "clear" then ShellAction.clear
  else ShellAction.help

def dispatch (input : List Char) : ShellAction :=
  if (pyStrip input).head? = some '/' then
    dispatchCommand (pySplitOnce (pyStrip input).tail)
  else ShellAction.chat (pyStrip input)

/-- The help text printed by the shell's unknown-command branch
(`main.py` lines 89-93). -/
def helpText : List String :=
  ["Unknown command. Available commands:",
   "  /search <query> - Search memories",
   "  /profile - View user profile",
   "  /clear - Clear chat history",
   "  /exit - Exit the chat"]

/-- The store/completion events one dispatched shell line performs
(`main.py` lines 68-99): commands delegate to the orchestrator, the
help and exit branches only print, free text goes through
`chat_with_memories` with streaming on. -/
def shellEvents (llm : LLM) (env : StoreEnv) (client : CompletionEnv)
    (input : List Char) : List Event :=
  match dispatch input with
  | .done => []
  | .help => []
  | .search q =>
      match llm.search_memories env (String.mk q) with
      | .ok r => r.2
      | .error _ => []
  | .profile =>
      match llm.get_user_profile env with
      | .ok r => r.2
      | .error _ => []
  | .clear =>
      match llm.memory_manager with
      | some mm => (mm.delete_user env llm.user_id).2
      | none => []
  | .chat m =>
      match llm.chat_with_memories env client (String.mk m) none true true with
      | .ok tr => tr
      | .error _ => []

/-! ## Claims -/

/-- **C3.** `searchMemories(userId, q, maxResults=N)` issues exactly one
search against the store, with limit `min(N, config.searchLimit)`, and
therefore never requests more than `min(N, config.searchLimit)`
results. -/
theorem claim3_search_requests_min_limit (mm : MemoryManager) (env : StoreEnv)
    (userId q : String) (n : Int) :
    (mm.search_memories env userId q n).2 =
      [Event.search q userId (min n mm.config.search_limit)] := rfl

/-- **C5.** `deleteUser` returns `false` when the underlying store
purge raises any error, and `true` when the purge succeeds; in both
cases it returns a plain boolean instead of propagating the error. -/
theorem claim5_delete_user_best_effort (mm : MemoryManager) (env : StoreEnv)
    (uid e : String) :
    (env.clearResult uid = Except.error e →
        mm.delete_user env uid = (false, [Event.clear uid]))
    ∧ (env.clearResult uid = Except.ok () →
        mm.delete_user env uid = (true, [Event.clear uid])) := by
  constructor <;> intro h <;> simp [MemoryManager.delete_user, h]

/-- Witness for C5: a store whose purge raises for user `bad` and
succeeds for user `good`. -/
theorem claim5_delete_user_best_effort_witness :
    MemoryManager.delete_user ⟨⟨5, 3⟩⟩
        ⟨fun _ _ _ => [], fun u => if u = "bad" then Except.error "boom" else Except.ok ()⟩
        "bad" = (false, [Event.clear "bad"])
    ∧ MemoryManager.delete_user ⟨⟨5, 3⟩⟩
        ⟨fun _ _ _ => [], fun u => if u = "bad" then Except.error "boom" else Except.ok ()⟩
        "good" = (true, [Event.clear "good"]) :=
  ⟨(claim5_delete_user_best_effort ⟨⟨5, 3⟩⟩
      ⟨fun _ _ _ => [], fun u => if u = "bad" then Except.error "boom" else Except.ok ()⟩
      "bad" "boom").1 (by rfl),
   (claim5_delete_user_best_effort ⟨⟨5, 3⟩⟩
      ⟨fun _ _ _ => [], fun u => if u = "bad" then Except.error "boom" else Except.ok ()⟩
      "good" "boom").2 (by rfl)⟩

/-- **C6 counterexample.** A provider entry carrying only
`model: "m1"` and `temperature: 0.5` does not yield a profile: `api_key`
and `api_base` are required fields of `LLMConfig` with no declared
default, so validation fails instead. -/
theorem claim6_counterexample :
    LLM.loadProviderConfig
        ⟨[("test", { model := some "m1", temperature := some (1/2) })]⟩ "test" =
      Except.error "validation error: field required" := by rfl

/-- **C6 (amended).** For a provider entry whose required fields
(`api_key`, `api_base`, `model`) are present, loading yields the profile
whose fields exactly match the entry, with the declared defaults
applied to omitted fields: temperature 0.7, max_tokens 2000, top_p 1.0,
and the default system prompt. -/
theorem claim6_defaults_applied (e : ProviderEntry) (k b m : String)
    (hk : e.api_key = some k) (hb : e.api_base = some b) (hm : e.model = some m) :
    LLMConfig.validate e =
      Except.ok { api_key := k, api_base := b, model := m,
                  temperature := e.temperature.getD (7/10),
                  max_tokens := e.max_tokens.getD 2000,
                  top_p := e.top_p.getD 1,
                  system_prompt := e.system_prompt.getD defaultSystemPrompt } := by
  unfold LLMConfig.validate
  rw [hk, hb, hm]

/-- Witness for C6 (amended): the spec scenario with the required
fields supplied — `model == "m1"`, `temperature == 0.5`,
`max_tokens == 2000` (default). -/
theorem claim6_defaults_applied_witness :
    LLMConfig.validate ⟨some "k", some "b", some "m1", some (1/2), none, none, none⟩ =
      Except.ok { api_key := "k", api_base := "b", model := "m1",
                  temperature := 1/2, max_tokens := 2000, top_p := 1,
                  system_prompt := defaultSystemPrompt } :=
  claim6_defaults_applied ⟨some "k", some "b", some "m1", some (1/2), none, none, none⟩
    "k" "b" "m1" rfl rfl rfl

/-- **C7.** Requesting a provider key absent from the `providers`
section fails with the "missing provider" error; there is no silent
fallback to a default profile. -/
theorem claim7_missing_provider (cfg : ConfigFile) (p : String)
    (h : cfg.providers.lookup p = none) :
    LLM.loadProviderConfig cfg p =
      Except.error ("Provider \x27" ++ p ++ "\x27 not found in configuration") := by
  unfold LLM.loadProviderConfig
  rw [h]

/-- Witness for C7: the empty providers section at key `open_router`. -/
theorem claim7_missing_provider_witness :
    LLM.loadProviderConfig ⟨[]⟩ "open_router" =
      Except.error ("Provider \x27" ++ "open_router" ++ "\x27 not found in configuration") :=
  claim7_missing_provider ⟨[]⟩ "open_router" rfl

/-- **C8.** Two `getContext` calls that differ only in `maxTokenSize`
and/or `preferTopics` return the same rendered string and issue the
same store query: the two parameters are accepted but inert. -/
theorem claim8_context_params_inert (mm : MemoryManager) (env : StoreEnv)
    (uid : String) (t1 t2 : Int) (p1 p2 : Option (List String)) :
    mm.get_context env uid t1 p1 = mm.get_context env uid t2 p2 := rfl

/-- **C4.** On an instance with no memory manager attached, each of the
three memory-dependent operations fails with the "memory not
configured" precondition error; the `Except.error` result carries no
event trace, so no completion or store call is performed. -/
theorem claim4_memory_guard (c : LLMConfig) (u : String) (env : StoreEnv)
    (client : CompletionEnv) (msg : String) (uid : Option String)
    (sm st : Bool) (q : String) (n : Int) :
    LLM.chat_with_memories ⟨c, none, u⟩ env client msg uid sm st =
        Except.error "Memory manager not initialized"
    ∧ LLM.get_user_profile ⟨c, none, u⟩ env =
        Except.error "Memory manager not initialized"
    ∧ LLM.search_memories ⟨c, none, u⟩ env q n =
        Except.error "Memory manager not initialized" :=
  ⟨rfl, rfl, rfl⟩

/-- **C9.** Every record returned by `search_memories` carries a
`relevance_score` taken from the raw store row with 0.0 substituted for
a missing score, and `chat_with_memories` renders a score-less memory
in the system prompt as `- <content> (Relevance: 0.00)`. -/
theorem claim9_missing_score_defaults (mm : MemoryManager) (env : StoreEnv)
    (uid q : String) (n : Int) (m : RawMemory) (hs : m.score = none) :
    (∀ r ∈ (mm.search_memories env uid q n).1,
        ∃ raw ∈ env.searchResults q uid (min n mm.config.search_limit),
          r.relevance_score = raw.score.getD 0)
    ∧ memoryLine m = "- " ++ m.memory ++ " (Relevance: " ++ "0.00" ++ ")" := by
  constructor
  · intro r hr
    simp only [MemoryManager.search_memories, List.mem_map] at hr
    obtain ⟨raw, hraw, rfl⟩ := hr
    exact ⟨raw, hraw, rfl⟩
  · have h0 : format2f ((none : Option ℚ).getD 0) = "0.00" := by decide
    unfold memoryLine
    rw [hs, h0]

/-- Witness for C9: a store returning one score-less row. -/
theorem claim9_missing_score_defaults_witness :
    (∀ r ∈ (MemoryManager.search_memories ⟨⟨5, 3⟩⟩
        ⟨fun _ _ _ => [⟨"likes tea", none, none, none⟩], fun _ => Except.ok ()⟩
        "u" "q" 5).1,
      ∃ raw ∈ (StoreEnv.mk (fun _ _ _ => [⟨"likes tea", none, none, none⟩])
          (fun _ => Except.ok ())).searchResults "q" "u" (min 5 (5 : Int)),
        r.relevance_score = raw.score.getD 0)
    ∧ memoryLine ⟨"likes tea", none, none, none⟩ =
        "- " ++ "likes tea" ++ " (Relevance: " ++ "0.00" ++ ")" :=
  claim9_missing_score_defaults ⟨⟨5, 3⟩⟩
    ⟨fun _ _ _ => [⟨"likes tea", none, none, none⟩], fun _ => Except.ok ()⟩
    "u" "q" 5 ⟨"likes tea", none, none, none⟩ rfl

/-- Fragments yielded to the caller contribute no store writes, purges
or searches of their own. -/
theorem countP_yieldFrag_map (p : Event → Bool)
    (hp : ∀ s, p (Event.yieldFrag s) = false) (l : List String) :
    (l.map Event.yieldFrag).countP p = 0 := by
  induction l with
  | nil => rfl
  | cons a t ih => simp [List.countP_cons, hp, ih]

/-- A block of yielded fragments contributes exactly its fragment list
to `yieldContents`. -/
theorem yieldContents_map_yieldFrag (l : List String) :
    yieldContents (l.map Event.yieldFrag) = l := by
  induction l with
  | nil => rfl
  | cons a t ih =>
      simp only [yieldContents, List.map_cons, List.filterMap_cons] at ih ⊢
      rw [ih]

/-- The streamed turn's trace prefix yields exactly the truthy chunk
contents: the leading search and completion events contribute nothing. -/
theorem yieldContents_stream_shape (q v : String) (n : Int) (b : Bool)
    (m : List Msg) (l : List String) :
    yieldContents (Event.search q v n :: Event.completionCreate b m ::
      l.map Event.yieldFrag) = l :=
  yieldContents_map_yieldFrag l

/-- **C1.** A streamed turn with `store_memory=true` performs its single
store write strictly after every yielded fragment (the write is the
last event of the trace and no earlier event is a write), and the
assistant message persisted by that write is the concatenation, in
order, of exactly the fragments yielded to the caller. -/
theorem claim1_stream_write_after_full_reply (c : LLMConfig) (mm : MemoryManager)
    (u : String) (env : StoreEnv) (client : CompletionEnv) (msg : String)
    (uid : Option String) :
    ∃ pre persisted uid2,
      LLM.chat_with_memories ⟨c, some mm, u⟩ env client msg uid true true =
          Except.ok (pre ++ [Event.add persisted uid2])
      ∧ (∀ e ∈ pre, e.isAdd = false)
      ∧ persisted.getLast? =
          some (Msg.mk "assistant" (String.join (yieldContents pre))) := by
  refine ⟨_, _, _, rfl, ?_, ?_⟩
  · intro e he
    simp only [List.mem_cons, List.mem_map] at he
    rcases he with rfl | rfl | ⟨s, _, rfl⟩ <;> rfl
  · rw [List.getLast?_concat, yieldContents_stream_shape]

/-- **C2.** With `store_memory=false` the turn never issues a write
(`add`) or purge (`clear`) to the store, in both streaming and
non-streaming mode; the store is still read by exactly one search. -/
theorem claim2_no_write_without_store_memory (c : LLMConfig) (mm : MemoryManager)
    (u : String) (env : StoreEnv) (client : CompletionEnv) (msg : String)
    (uid : Option String) (st : Bool) :
    ∃ tr, LLM.chat_with_memories ⟨c, some mm, u⟩ env client msg uid false st =
        Except.ok tr
      ∧ tr.countP Event.isAdd = 0
      ∧ tr.countP Event.isClear = 0
      ∧ tr.countP Event.isStoreSearch = 1 := by
  cases st with
  | false =>
      refine ⟨_, rfl, ?_, ?_, ?_⟩ <;>
        simp [List.countP_cons, List.countP_nil, Event.isAdd, Event.isClear,
          Event.isStoreSearch]
  | true =>
      refine ⟨_, rfl, ?_, ?_, ?_⟩ <;>
        simp [List.countP_cons, countP_yieldFrag_map, Event.isAdd, Event.isClear,
          Event.isStoreSearch]

/-- Witness for C1: a concrete streamed turn whose chunks are
`"Hel"`, a `None` delta, an empty delta and `"lo"`. -/
theorem claim1_stream_write_after_full_reply_witness :
    ∃ pre persisted uid2,
      LLM.chat_with_memories
          ⟨⟨"k", "b", "m", 7/10, 2000, 1, defaultSystemPrompt⟩, some ⟨⟨5, 3⟩⟩, "u"⟩
          ⟨fun _ _ _ => [], fun _ => Except.ok ()⟩
          ⟨fun _ => [some "Hel", none, some "", some "lo"], fun _ => "Hello"⟩
          "hi" none true true =
          Except.ok (pre ++ [Event.add persisted uid2])
      ∧ (∀ e ∈ pre, e.isAdd = false)
      ∧ persisted.getLast? =
          some (Msg.mk "assistant" (String.join (yieldContents pre))) :=
  claim1_stream_write_after_full_reply
    ⟨"k", "b", "m", 7/10, 2000, 1, defaultSystemPrompt⟩ ⟨⟨5, 3⟩⟩ "u" _ _ "hi" none

/-- Witness for C2: a concrete turn with `store_memory=false` in
streaming mode. -/
theorem claim2_no_write_without_store_memory_witness :
    ∃ tr, LLM.chat_with_memories
        ⟨⟨"k", "b", "m", 7/10, 2000, 1, defaultSystemPrompt⟩, some ⟨⟨5, 3⟩⟩, "u"⟩
        ⟨fun _ _ _ => [], fun _ => Except.ok ()⟩
        ⟨fun _ => [some "Hel", none, some "", some "lo"], fun _ => "Hello"⟩
        "hi" none false true = Except.ok tr
      ∧ tr.countP Event.isAdd = 0
      ∧ tr.countP Event.isClear = 0
      ∧ tr.countP Event.isStoreSearch = 1 :=
  claim2_no_write_without_store_memory
    ⟨"k", "b", "m", 7/10, 2000, 1, defaultSystemPrompt⟩ ⟨⟨5, 3⟩⟩ "u" _ _ "hi" none true

/-- Witness for C3: `maxResults = 9` against `search_limit = 5`. -/
theorem claim3_search_requests_min_limit_witness :
    (MemoryManager.search_memories ⟨⟨5, 3⟩⟩
        ⟨fun _ _ _ => [], fun _ => Except.ok ()⟩ "u" "q" 9).2 =
      [Event.search "q" "u" (min 9 5)] :=
  claim3_search_requests_min_limit ⟨⟨5, 3⟩⟩
    ⟨fun _ _ _ => [], fun _ => Except.ok ()⟩ "u" "q" 9

/-- Witness for C4: a concrete instance with no manager attached. -/
theorem claim4_memory_guard_witness :
    LLM.chat_with_memories
        ⟨⟨"k", "b", "m", 7/10, 2000, 1, defaultSystemPrompt⟩, none, "u"⟩
        ⟨fun _ _ _ => [], fun _ => Except.ok ()⟩
        ⟨fun _ => [], fun _ => "Hello"⟩ "hi" none true false =
        Except.error "Memory manager not initialized"
    ∧ LLM.get_user_profile
        ⟨⟨"k", "b", "m", 7/10, 2000, 1, defaultSystemPrompt⟩, none, "u"⟩
        ⟨fun _ _ _ => [], fun _ => Except.ok ()⟩ =
        Except.error "Memory manager not initialized"
    ∧ LLM.search_memories
        ⟨⟨"k", "b", "m", 7/10, 2000, 1, defaultSystemPrompt⟩, none, "u"⟩
        ⟨fun _ _ _ => [], fun _ => Except.ok ()⟩ "q" 5 =
        Except.error "Memory manager not initialized" :=
  claim4_memory_guard ⟨"k", "b", "m", 7/10, 2000, 1, defaultSystemPrompt⟩ "u" _ _
    "hi" none true false "q" 5

/-- Witness for C8: `maxTokenSize` 500 vs 100, `preferTopics` absent vs
present. -/
theorem claim8_context_params_inert_witness :
    MemoryManager.get_context ⟨⟨5, 3⟩⟩
        ⟨fun _ _ _ => [⟨"likes tea", none, none, none⟩], fun _ => Except.ok ()⟩
        "u" 500 none =
      MemoryManager.get_context ⟨⟨5, 3⟩⟩
        ⟨fun _ _ _ => [⟨"likes tea", none, none, none⟩], fun _ => Except.ok ()⟩
        "u" 100 (some ["tea"]) :=
  claim8_context_params_inert ⟨⟨5, 3⟩⟩
    ⟨fun _ _ _ => [⟨"likes tea", none, none, none⟩], fun _ => Except.ok ()⟩
    "u" 500 100 none (some ["tea"])

/-- When `split(" ", 1)` produces a second part, the input was the
first part, a space, then the second part. -/
theorem pySplitOnce_snd_some (l : List Char) :
    ∀ b, (pySplitOnce l).2 = some b → l = (pySplitOnce l).1 ++ ' ' :: b := by
  induction l with
  | nil => intro b h; exact Option.noConfusion h
  | cons c rest ih =>
      intro b h
      by_cases hc : c = ' '
      · subst hc
        have he : pySplitOnce (' ' :: rest) = ([], some rest) := by simp [pySplitOnce]
        rw [he] at h ⊢
        simp only [Option.some.injEq] at h
        rw [h]
        rfl
      · simp only [pySplitOnce, if_neg hc] at h ⊢
        exact congrArg (List.cons c) (ih b h)

/-- The head of `dropWhile p` never satisfies `p`. -/
theorem head?_dropWhile_false (p : Char → Bool) (l : List Char) (c : Char)
    (h : (l.dropWhile p).head? = some c) : p c = false := by
  induction l with
  | nil => exact Option.noConfusion h
  | cons a t ih =>
      rw [List.dropWhile_cons] at h
      split_ifs at h with ha
      · exact ih h
      · simp only [List.head?_cons, Option.some.injEq] at h
        subst h
        simpa using ha

/-- A stripped line never ends in whitespace. -/
theorem pyStrip_getLast_not_space (l : List Char) (c : Char)
    (h : (pyStrip l).getLast? = some c) : pyIsSpace c = false := by
  unfold pyStrip at h
  rw [List.getLast?_reverse] at h
  exact head?_dropWhile_false _ _ _ h

/-- The search branch only ever fires with the part after the first
space as its query. -/
theorem dispatchCommand_search_arg (c : List Char × Option (List Char))
    (q : List Char) (h : dispatchCommand c = ShellAction.search q) :
    c.2 = some q := by
  unfold dispatchCommand at h
  split_ifs at h with h1 h2 h3 h4
  obtain ⟨b, hb⟩ := Option.isSome_iff_exists.mp h2.2
  injection h with h'
  rw [hb] at h' ⊢
  simp only [Option.getD_some] at h'
  rw [h']

/-- **C10.** The bare input line `/search` (no query text after the
command token) dispatches to the help branch and performs no store or
completion event; and the search branch is taken only with a non-empty
query argument after the token. -/
theorem claim10_search_needs_query :
    dispatch (String.toList "/search") = ShellAction.help
    ∧ (∀ llm env client, shellEvents llm env client (String.toList "/search") = [])
    ∧ (∀ input q, dispatch input = ShellAction.search q → q ≠ []) := by
  refine ⟨by decide, ?_, ?_⟩
  · intro llm env client
    have hd : dispatch (String.toList "/search") = ShellAction.help := by decide
    unfold shellEvents
    rw [hd]
  · intro input q h hq
    subst hq
    unfold dispatch at h
    split_ifs at h with hslash
    have hsome := dispatchCommand_search_arg _ _ h
    have htail := pySplitOnce_snd_some _ _ hsome
    rcases hps : pyStrip input with _ | ⟨x, xs⟩
    · rw [hps] at hslash
      exact Option.noConfusion hslash
    · rw [hps] at htail
      simp only [List.tail_cons] at htail
      have hlast : (pyStrip input).getLast? = some ' ' := by
        rw [hps, htail, ← List.cons_append]
        exact List.getLast?_concat _
      have hns := pyStrip_getLast_not_space input ' ' hlast
      simp [pyIsSpace] at hns

/-- Witness for C10: `/search foo` does reach the search branch, with
the non-empty query `foo`. -/
theorem claim10_search_needs_query_witness :
    dispatch (String.toList "/search") = ShellAction.help
    ∧ String.toList "foo" ≠ [] :=
  ⟨claim10_search_needs_query.1,
   claim10_search_needs_query.2.2 (String.toList "/search foo") (String.toList "foo")
     (by decide)⟩
